import Mathlib

/-!
Shallow embedding of `impeller/display_list/dl_dispatcher.cc` (the Impeller
display-list dispatcher): the component that replays a recorded stream of
drawing directives onto a stateful `Canvas` collaborator.

Conventions of the embedding:
* C++ `Scalar` (float) is modelled as `ℚ`; every operation the verified
  properties depend on is exact arithmetic, comparison or copying, so the
  rationals are a faithful carrier. Decimal literals are taken at their
  written value.
* Impeller 4x4 matrices are `Matrix (Fin 4) (Fin 4) ℚ`.
* The `Canvas` collaborator (impeller/aiks) is outside the source file.
  It is modelled from the spec as a transform/save stack together with a log
  of issued draw calls: `Save` pushes the current transform, `Restore` pops
  unless only the base entry is left, `GetSaveCount` is the stack size,
  `RestoreToCount n` restores while the count exceeds `n`.
* Closure-valued filter procedures are actual Lean functions producing
  nodes of a `FilterContents` tree.
* A null C++ pointer argument is an explicit `none` / `.null` value.
-/

namespace Impeller

abbrev Scalar := ℚ

abbrev Mat := Matrix (Fin 4) (Fin 4) ℚ

abbrev Point := Scalar × Scalar

structure Color where
  red : Scalar
  green : Scalar
  blue : Scalar
  alpha : Scalar
deriving DecidableEq, Repr

structure Rect where
  left : Scalar
  top : Scalar
  right : Scalar
  bottom : Scalar
deriving DecidableEq, Repr

def Rect.width (r : Rect) : Scalar := r.right - r.left

def Rect.height (r : Rect) : Scalar := r.bottom - r.top

def Rect.center (r : Rect) : Point := ((r.left + r.right) / 2, (r.top + r.bottom) / 2)

/-- The `Matrix::MakeTranslation` of a 2-d offset. -/
def makeTranslation (x y : Scalar) : Mat :=
  Matrix.of ![![1, 0, 0, x], ![0, 1, 0, y], ![0, 0, 1, 0], ![0, 0, 0, 1]]

/-- Modelled from the spec: the canvas's current vertical scale factor
(`Matrix::GetScale().y` is defined outside this source file); modelled as the
second diagonal entry of the transform. -/
def verticalScale (m : Mat) : Scalar := m 1 1

/-! ### Enums and their external (`Dl`) counterparts -/

inductive BlendMode where
  | clear | source | destination | sourceOver | destinationOver
  | sourceIn | destinationIn | sourceOut | destinationOut
  | sourceATop | destinationATop | xor | plus | modulate
  | screen | overlay | darken | lighten | colorDodge | colorBurn
  | hardLight | softLight | difference | exclusion | multiply
  | hue | saturation | color | luminosity
deriving DecidableEq, Repr

inductive DlBlendMode where
  | clear | src | dst | srcOver | dstOver
  | srcIn | dstIn | srcOut | dstOut
  | srcATop | dstATop | xor | plus | modulate
  | screen | overlay | darken | lighten | colorDodge | colorBurn
  | hardLight | softLight | difference | exclusion | multiply
  | hue | saturation | color | luminosity
deriving DecidableEq, Repr

def toBlendMode : DlBlendMode → BlendMode
  | .clear => .clear
  | .src => .source
  | .dst => .destination
  | .srcOver => .sourceOver
  | .dstOver => .destinationOver
  | .srcIn => .sourceIn
  | .dstIn => .destinationIn
  | .srcOut => .sourceOut
  | .dstOut => .destinationOut
  | .srcATop => .sourceATop
  | .dstATop => .destinationATop
  | .xor => .xor
  | .plus => .plus
  | .modulate => .modulate
  | .screen => .screen
  | .overlay => .overlay
  | .darken => .darken
  | .lighten => .lighten
  | .colorDodge => .colorDodge
  | .colorBurn => .colorBurn
  | .hardLight => .hardLight
  | .softLight => .softLight
  | .difference => .difference
  | .exclusion => .exclusion
  | .multiply => .multiply
  | .hue => .hue
  | .saturation => .saturation
  | .color => .color
  | .luminosity => .luminosity

inductive TileMode where
  | clamp | repeat | mirror | decal
deriving DecidableEq, Repr

inductive DlTileMode where
  | clamp | repeat | mirror | decal
deriving DecidableEq, Repr

def toTileMode : DlTileMode → TileMode
  | .clamp => .clamp
  | .repeat => .repeat
  | .mirror => .mirror
  | .decal => .decal

inductive MinMagFilter where
  | nearest | linear
deriving DecidableEq, Repr

inductive MipFilter where
  | none | nearest | linear
deriving DecidableEq, Repr

structure SamplerDescriptor where
  minFilter : MinMagFilter := .nearest
  magFilter : MinMagFilter := .nearest
  mipFilter : MipFilter := .none
  label : String := ""
deriving DecidableEq, Repr

inductive DlImageSampling where
  | nearestNeighbor | linear | mipmapLinear | cubic
deriving DecidableEq, Repr

/-- Function `ToSamplerDescriptor(DlImageSampling)`: cubic is approximated as linear
because Impeller has no cubic sampling. -/
def toSamplerDescriptor : DlImageSampling → SamplerDescriptor
  | .nearestNeighbor =>
      { minFilter := .nearest, magFilter := .nearest, label := "Nearest Sampler" }
  | .linear =>
      { minFilter := .linear, magFilter := .linear, label := "Linear Sampler" }
  | .cubic =>
      { minFilter := .linear, magFilter := .linear, label := "Linear Sampler" }
  | .mipmapLinear =>
      { minFilter := .linear, magFilter := .linear, mipFilter := .linear,
        label := "Mipmap Linear Sampler" }

inductive Cap where
  | butt | round | square
deriving DecidableEq, Repr

inductive Join where
  | miter | round | bevel
deriving DecidableEq, Repr

inductive PaintStyle where
  | fill | stroke
deriving DecidableEq, Repr

inductive DlStrokeCap where
  | butt | round | square
deriving DecidableEq, Repr

inductive DlStrokeJoin where
  | miter | round | bevel
deriving DecidableEq, Repr

inductive DlDrawStyle where
  | fill | stroke | strokeAndFill
deriving DecidableEq, Repr

def toCap : DlStrokeCap → Cap
  | .butt => .butt
  | .round => .round
  | .square => .square

def toJoin : DlStrokeJoin → Join
  | .miter => .miter
  | .round => .round
  | .bevel => .bevel

/-- Function `ToStyle`: stroke-and-fill is unimplemented, logs a diagnostic and falls
back to `kFill`. -/
def toStyle : DlDrawStyle → PaintStyle
  | .fill => .fill
  | .stroke => .stroke
  | .strokeAndFill => .fill

inductive BlurStyle where
  | normal | solid | outer | inner
deriving DecidableEq, Repr

inductive DlBlurStyle where
  | normal | solid | outer | inner
deriving DecidableEq, Repr

def toBlurStyle : DlBlurStyle → BlurStyle
  | .normal => .normal
  | .solid => .solid
  | .outer => .outer
  | .inner => .inner

inductive MorphType where
  | dilate | erode
deriving DecidableEq, Repr

structure MaskBlurDescriptor where
  style : BlurStyle
  sigma : Scalar
deriving DecidableEq, Repr

inductive DlMaskFilter where
  | blur (style : DlBlurStyle) (sigma : Scalar)
deriving DecidableEq, Repr

/-- A 3x3 row-major `SkMatrix` (nine entries `m[0] .. m[8]`). -/
abbrev SkMatrix := Fin 9 → Scalar

/-- Function `ToMatrix(SkMatrix)`: expands a row-major 3x3 matrix into the 4x4
column-major Impeller matrix (here written row by row). -/
def toMatrix (m : SkMatrix) : Mat :=
  Matrix.of ![![m 0, m 1, 0, m 2], ![m 3, m 4, 0, m 5], ![0, 0, 1, 0], ![m 6, m 7, 0, m 8]]

/-! ### Color filters -/

abbrev ColorMatrix := Fin 20 → Scalar

inductive ColorFilter where
  | blend (mode : BlendMode) (color : Color)
  | matrixFilter (m : ColorMatrix)
  | srgbToLinear
  | linearToSrgb

inductive DlColorFilter where
  | blend (mode : DlBlendMode) (color : Color)
  | matrixFilter (m : ColorMatrix)
  | srgbToLinearGamma
  | linearToSrgbGamma

/-- The switch body of `ToColorFilter` for a non-null filter. -/
def toColorFilterSome : DlColorFilter → ColorFilter
  | .blend mode color => .blend (toBlendMode mode) color
  | .matrixFilter m => .matrixFilter m
  | .srgbToLinearGamma => .srgbToLinear
  | .linearToSrgbGamma => .linearToSrgb

/-- Function `ToColorFilter`: null maps to null, otherwise the switch above (the
trailing `return nullptr` after the exhaustive switch is unreachable). -/
def toColorFilter : Option DlColorFilter → Option ColorFilter
  | none => none
  | some f => some (toColorFilterSome f)

/-! ### Gradient stop conversion -/

/-- Function `ConvertStops`: converts display-list colors and stops into Impeller
colors and stops, ensuring the stops start with 0.0 and end with 1.0.
The source reads `dl_stops[0]`, appends all pairs, then checks the back of
the accumulated stop vector; out-of-range reads of an empty input (excluded
by the `stop_count() >= 2` DCHECK) are given the default 0. -/
def convertStops (dlColors : List Color) (dlStops : List Scalar) :
    List Color × List Scalar :=
  let colors0 : List Color :=
    if dlStops.headD 0 ≠ 0 then [dlColors.headD ⟨0, 0, 0, 0⟩] else []
  let stops0 : List Scalar := if dlStops.headD 0 ≠ 0 then [0] else []
  let colors1 := colors0 ++ dlColors
  let stops1 := stops0 ++ dlStops
  if stops1.getLastD 0 ≠ 1 then
    (colors1 ++ [colors1.getLastD ⟨0, 0, 0, 0⟩], stops1 ++ [1])
  else
    (colors1, stops1)

/-! ### Image-filter procedures -/

mutual
inductive FilterContents where
  | gaussianBlur (input : FilterInput) (sigmaX sigmaY : Scalar) (style : BlurStyle)
      (tileMode : TileMode) (effectTransform : Mat)
  | morphology (input : FilterInput) (radiusX radiusY : Scalar) (morphType : MorphType)
      (effectTransform : Mat)
  | matrixFilter (input : FilterInput) (m : Mat) (desc : SamplerDescriptor)
      (effectTransform : Mat) (isSubpass : Bool)
  | colorFilterWrap (cf : ColorFilter) (input : FilterInput) (absorbOpacity : Bool)
  | localMatrixFilter (input : FilterInput) (m : Mat)

inductive FilterInput where
  | source (id : Nat)
  | make (contents : FilterContents)
end

/-- Type `Paint::ImageFilterProc`: a composable procedure
`(input, effect_transform, is_subpass) → FilterContents`. -/
abbrev FilterProc := FilterInput → Mat → Bool → FilterContents

structure Texture where
  width : Scalar
  height : Scalar
deriving DecidableEq, Repr

/-- A `flutter::DlImage`: a reference to an externally owned texture, which
may be absent. -/
structure DlImage where
  texture : Option Texture
deriving DecidableEq, Repr

/-- A `flutter::DlImageFilter*` argument; `.null` is the null pointer. -/
inductive DlImageFilter where
  | null
  | blur (sigmaX sigmaY : Scalar) (tileMode : DlTileMode)
  | dilate (radiusX radiusY : Scalar)
  | erode (radiusX radiusY : Scalar)
  | matrixFilter (m : SkMatrix) (sampling : DlImageSampling)
  | compose (outer inner : DlImageFilter)
  | colorFilterF (cf : Option DlColorFilter)
  | localMatrix (m : SkMatrix) (innerF : DlImageFilter)

/-- Function `ToImageFilterProc`: builds the filter procedure for a display-list image
filter; `none` is the null procedure. Captured parameters are copied by value
into the returned closures. -/
def toImageFilterProc : DlImageFilter → Option FilterProc
  | .null => none
  | .blur sigmaX sigmaY tileMode =>
      some (fun input effectTransform _isSubpass =>
        .gaussianBlur input sigmaX sigmaY .normal (toTileMode tileMode) effectTransform)
  | .dilate radiusX radiusY =>
      if radiusX < 0 ∨ radiusY < 0 then none
      else some (fun input effectTransform _isSubpass =>
        .morphology input radiusX radiusY .dilate effectTransform)
  | .erode radiusX radiusY =>
      if radiusX < 0 ∨ radiusY < 0 then none
      else some (fun input effectTransform _isSubpass =>
        .morphology input radiusX radiusY .erode effectTransform)
  | .matrixFilter m sampling =>
      some (fun input effectTransform isSubpass =>
        .matrixFilter input (toMatrix m) (toSamplerDescriptor sampling)
          effectTransform isSubpass)
  | .compose outer inner =>
      match toImageFilterProc outer, toImageFilterProc inner with
      | none, innerProc => innerProc
      | some outerProc, none => some outerProc
      | some outerProc, some innerProc =>
          some (fun input effectTransform isSubpass =>
            outerProc (.make (innerProc input effectTransform isSubpass))
              effectTransform isSubpass)
  | .colorFilterF cf =>
      match toColorFilter cf with
      | none => none
      | some filterV =>
          -- When color filters are used as image filters, the "absorb
          -- opacity" flag of the wrapping is false: the snapshot opacity is
          -- deferred until the filter-chain result is blended with the layer.
          some (fun input _effectTransform _isSubpass =>
            .colorFilterWrap filterV input false)
  | .localMatrix m innerF =>
      match toImageFilterProc innerF with
      | none => none
      | some filterProc =>
          some (fun input effectTransform isSubpass =>
            .localMatrixFilter (.make (filterProc input effectTransform isSubpass))
              (toMatrix m))

/-- Modelled from the spec: when a color filter is used directly as a paint
attribute (outside this source file), its "absorb opacity" flag defaults to
true. -/
def paintAttributeAbsorbOpacity : Bool := true

/-! ### Color sources -/

structure TextureInput where
  samplerDescriptor : SamplerDescriptor
  texture : Option Texture
deriving DecidableEq, Repr

/-- The built Impeller `ColorSource` held by the paint. -/
inductive ColorSource where
  | color
  | linearGradient (startPoint endPoint : Point) (colors : List Color)
      (stops : List Scalar) (tileMode : TileMode) (m : Mat)
  | conicalGradient (center : Point) (radius : Scalar) (colors : List Color)
      (stops : List Scalar) (focusCenter : Point) (focusRadius : Scalar)
      (tileMode : TileMode) (m : Mat)
  | radialGradient (center : Point) (radius : Scalar) (colors : List Color)
      (stops : List Scalar) (tileMode : TileMode) (m : Mat)
  | sweepGradient (center : Point) (startAngle endAngle : Scalar) (colors : List Color)
      (stops : List Scalar) (tileMode : TileMode) (m : Mat)
  | image (texture : Option Texture) (xTileMode yTileMode : TileMode)
      (desc : SamplerDescriptor) (m : Mat)
  | runtimeEffect (runtimeStage : Nat) (uniformData : Nat)
      (textureInputs : List TextureInput)

/-- A sampler entry of a runtime-effect color source, as queried by the
dispatcher: either an image color source or some other kind (`asImage()`
returns null). -/
inductive SamplerEntry where
  | image (img : DlImage) (sampling : DlImageSampling)
  | nonImage
deriving DecidableEq, Repr

/-- A `flutter::DlColorSource`. Gradient payloads carry the raw color/stop
arrays; the runtime-effect payload carries opaque stage/uniform identifiers
plus the sampler list (entries may be null pointers). -/
inductive DlColorSource where
  | colorSrc (c : Color)
  | linearGradient (startPoint endPoint : Point) (colors : List Color)
      (stops : List Scalar) (tileMode : DlTileMode) (m : SkMatrix)
  | conicalGradient (startCenter : Point) (startRadius : Scalar)
      (endCenter : Point) (endRadius : Scalar) (colors : List Color)
      (stops : List Scalar) (tileMode : DlTileMode) (m : SkMatrix)
  | radialGradient (center : Point) (radius : Scalar) (colors : List Color)
      (stops : List Scalar) (tileMode : DlTileMode) (m : SkMatrix)
  | sweepGradient (center : Point) (startAngle endAngle : Scalar)
      (colors : List Color) (stops : List Scalar) (tileMode : DlTileMode) (m : SkMatrix)
  | image (img : DlImage) (hTileMode vTileMode : DlTileMode)
      (sampling : DlImageSampling) (m : SkMatrix)
  | runtimeEffect (runtimeStage : Nat) (uniformData : Nat)
      (samplers : List (Option SamplerEntry))
  | scene

/-- The sampler loop of the `kRuntimeEffect` case: walks the sampler list in
order and builds the texture inputs; a null entry or a non-image entry makes
the whole assignment return early (`none`). -/
def collectTextureInputs : List (Option SamplerEntry) → Option (List TextureInput)
  | [] => some []
  | none :: _ => none
  | some .nonImage :: _ => none
  | some (.image img sampling) :: rest =>
      match collectTextureInputs rest with
      | none => none
      | some textureInputs =>
          some ({ samplerDescriptor := toSamplerDescriptor sampling,
                  texture := img.texture } :: textureInputs)

/-! ### Paint state -/

structure Paint where
  style : PaintStyle := .fill
  color : Color := ⟨0, 0, 0, 1⟩
  strokeWidth : Scalar := 0
  strokeMiter : Scalar := 4
  strokeCap : Cap := .butt
  strokeJoin : Join := .miter
  colorSource : ColorSource := .color
  colorFilter : Option ColorFilter := none
  invertColors : Bool := false
  blendMode : BlendMode := .sourceOver
  imageFilter : Option FilterProc := none
  maskBlurDescriptor : Option MaskBlurDescriptor := none
  dither : Bool := false

/-- Setter `DlDispatcher::setColor`. -/
def setColorFn (p : Paint) (c : Color) : Paint := { p with color := c }

/-- Setter `DlDispatcher::setColorSource`. A null source resets to the solid color
source; a malformed runtime-effect sampler list leaves the paint unchanged;
the scene case without the 3-D feature logs and leaves the paint unchanged. -/
def setColorSourceFn (p : Paint) (source : Option DlColorSource) : Paint :=
  match source with
  | none => { p with colorSource := .color }
  | some (.colorSrc c) => setColorFn { p with colorSource := .color } c
  | some (.linearGradient startPoint endPoint colors stops tileMode m) =>
      let conv := convertStops colors stops
      { p with colorSource := (.linearGradient startPoint endPoint conv.1 conv.2
          (toTileMode tileMode) (toMatrix m)) }
  | some (.conicalGradient startCenter startRadius endCenter endRadius colors stops
        tileMode m) =>
      let conv := convertStops colors stops
      { p with colorSource := (.conicalGradient endCenter endRadius conv.1 conv.2
          startCenter startRadius (toTileMode tileMode) (toMatrix m)) }
  | some (.radialGradient center radius colors stops tileMode m) =>
      let conv := convertStops colors stops
      { p with colorSource := (.radialGradient center radius conv.1 conv.2
          (toTileMode tileMode) (toMatrix m)) }
  | some (.sweepGradient center startAngle endAngle colors stops tileMode m) =>
      let conv := convertStops colors stops
      { p with colorSource := (.sweepGradient center startAngle endAngle conv.1 conv.2
          (toTileMode tileMode) (toMatrix m)) }
  | some (.image img hTileMode vTileMode sampling m) =>
      { p with colorSource := (.image img.texture (toTileMode hTileMode)
          (toTileMode vTileMode) (toSamplerDescriptor sampling) (toMatrix m)) }
  | some (.runtimeEffect runtimeStage uniformData samplers) =>
      match collectTextureInputs samplers with
      | none => p
      | some textureInputs =>
          { p with colorSource := .runtimeEffect runtimeStage uniformData textureInputs }
  | some .scene => p

/-- Setter `DlDispatcher::setColorFilter`. -/
def setColorFilterFn (p : Paint) (filterV : Option DlColorFilter) : Paint :=
  { p with colorFilter := toColorFilter filterV }

/-- Setter `DlDispatcher::setImageFilter`. -/
def setImageFilterFn (p : Paint) (filterV : DlImageFilter) : Paint :=
  { p with imageFilter := toImageFilterProc filterV }

/-- Setter `DlDispatcher::setMaskFilter`. -/
def setMaskFilterFn (p : Paint) (filterV : Option DlMaskFilter) : Paint :=
  match filterV with
  | none => { p with maskBlurDescriptor := none }
  | some (.blur style sigma) =>
      { p with maskBlurDescriptor := some ⟨toBlurStyle style, sigma⟩ }

/-! ### Paths and draw calls -/

/-- The Skia view of a rounded rectangle, as queried by the dispatcher:
its bounds, whether it is simple, and the simple corner radius
(`getSimpleRadii().fX`). -/
structure SkRRect where
  rect : Rect
  isSimple : Bool
  simpleRadiusX : Scalar
deriving DecidableEq, Repr

/-- An `SkPath` argument, exposing the shape queries the dispatcher performs
(`isRect`, `isRRect`, `isOval`) plus an opaque identity for the general path
data. -/
structure SkPath where
  asRect : Option Rect
  asRRect : Option SkRRect
  asOval : Option Rect
  pathId : Nat
deriving DecidableEq, Repr

/-- A draw call issued to the external canvas. -/
inductive DrawCall where
  | drawRect (rect : Rect) (paint : Paint)
  | drawRRect (rect : Rect) (cornerRadius : Scalar) (paint : Paint)
  | drawCircle (center : Point) (radius : Scalar) (paint : Paint)
  | drawPathCall (path : SkPath) (paint : Paint)
  | drawImageRect (texture : Option Texture) (src dst : Rect) (paint : Paint)
      (sampler : SamplerDescriptor)
  | saveLayerCall (paint : Paint) (bounds : Option Rect)
      (backdropFilter : Option FilterProc)

/-! ### The canvas collaborator (modelled from the spec) -/

/-- Modelled from the spec: the external `Canvas` state this core drives.
`xformation` is the current accumulated transform, `saved` the stack of
transforms pushed by `Save`/`SaveLayer` (the base entry is implicit), and
`calls` the log of issued draw calls (most recent first). Clip state is
opaque to every verified property and is omitted. -/
structure CanvasState where
  xformation : Mat
  saved : List Mat
  calls : List DrawCall

/-- Collaborator op `Canvas::GetSaveCount`: the size of the transform stack (base included). -/
def CanvasState.saveCount (c : CanvasState) : Nat := c.saved.length + 1

/-- Collaborator op `Canvas::Save`. -/
def CanvasState.save (c : CanvasState) : CanvasState :=
  { c with saved := c.xformation :: c.saved }

/-- Collaborator op `Canvas::Restore`: pops one entry, a no-op at the base entry. -/
def CanvasState.restore (c : CanvasState) : CanvasState :=
  match c.saved with
  | [] => c
  | m :: rest => { c with xformation := m, saved := rest }

/-- Collaborator op `Canvas::Transform` (concatenation onto the current transform). -/
def CanvasState.transformOp (c : CanvasState) (m : Mat) : CanvasState :=
  { c with xformation := c.xformation * m }

/-- Collaborator op `Canvas::PreConcat`. -/
def CanvasState.preConcat (c : CanvasState) (m : Mat) : CanvasState :=
  { c with xformation := c.xformation * m }

/-- Collaborator op `Canvas::ResetTransform`. -/
def CanvasState.resetTransform (c : CanvasState) : CanvasState :=
  { c with xformation := 1 }

/-- Collaborator op `Canvas::Translate`. -/
def CanvasState.translateOp (c : CanvasState) (tx ty : Scalar) : CanvasState :=
  c.transformOp (makeTranslation tx ty)

/-- Issue a draw call. -/
def CanvasState.draw (c : CanvasState) (call : DrawCall) : CanvasState :=
  { c with calls := call :: c.calls }

/-- Collaborator op `Canvas::SaveLayer`: records the layer and pushes one save entry. -/
def CanvasState.saveLayer (c : CanvasState) (p : Paint) (bounds : Option Rect)
    (backdropFilter : Option FilterProc) : CanvasState :=
  { c with saved := c.xformation :: c.saved,
           calls := .saveLayerCall p bounds backdropFilter :: c.calls }

/-- The loop of `Canvas::RestoreToCount n`: restore while the save count
exceeds `n`, stopping at the base entry. -/
def restorePop (n : Nat) (xformation : Mat) (calls : List DrawCall) :
    List Mat → CanvasState
  | [] => ⟨xformation, [], calls⟩
  | m :: rest =>
      if rest.length + 2 > n then restorePop n m calls rest
      else ⟨xformation, m :: rest, calls⟩

/-- Collaborator op `Canvas::RestoreToCount`. -/
def CanvasState.restoreToCount (c : CanvasState) (n : Nat) : CanvasState :=
  restorePop n c.xformation c.calls c.saved

/-! ### Shadow computation (`DlDispatcher::drawShadow`) -/

/-- Clamp to the unit interval, `std::clamp(x, 0, 1)`. -/
def clamp01 (x : Scalar) : Scalar := min (max x 0) 1

/-- The tonal spot-color computation of `drawShadow` (ported in the source
from `SkShadowUtils::ComputeTonalColors`), including the initial
`alpha *= 0.25`. -/
def computeShadowSpotColor (c : Color) : Color :=
  let a := c.alpha * 0.25
  let mx := max (max c.red c.green) c.blue
  let mn := min (min c.red c.green) c.blue
  let luminance := (mn + mx) * 0.5
  let alphaAdjust := (2.6 + (-2.66667 + 1.06667 * a) * a) * a
  let colorAlpha0 := (3.544762 + (-4.891428 + 2.3466 * luminance) * luminance) * luminance
  let colorAlpha := clamp01 (alphaAdjust * colorAlpha0)
  let greyscaleAlpha := clamp01 (a * (1 - 0.4 * luminance))
  let colorScale := colorAlpha * (1 - greyscaleAlpha)
  let tonalAlpha := colorScale + greyscaleAlpha
  let unpremulScale := if tonalAlpha ≠ 0 then colorScale / tonalAlpha else 0
  ⟨unpremulScale * c.red, unpremulScale * c.green, unpremulScale * c.blue, tonalAlpha⟩

/-- The fixed light position `(0, -1, 1)` of `drawShadow`. -/
def lightPosition : Scalar × Scalar × Scalar := (0, -1, 1)

/-- Constant `kLightRadius`, declared `constexpr Scalar kLightRadius = 800 / 600;` — the division is C++
integer division of the literals 800 and 600, performed before the
conversion to `Scalar`. -/
def kLightRadius : Scalar := ((800 / 600 : Int) : ℚ)

/-- The transient paint built by `drawShadow` (fill style, tonal spot color,
normal-style mask blur whose parameter is
`kLightRadius * occluder_z / GetCurrentTransformation().GetScale().y`).
The `Radius`/`Sigma` wrapper types live outside this source file; the
descriptor stores the written parameter value. -/
def shadowPaintFor (c : Color) (elevation dpr : Scalar) (currentTransform : Mat) :
    Paint :=
  { style := .fill,
    color := computeShadowSpotColor c,
    maskBlurDescriptor :=
      some ⟨.normal, kLightRadius * (dpr * elevation) / verticalScale currentTransform⟩ }

/-! ### The directive stream and the dispatcher -/

/-- A directive stream: the ordered sequence of display-list operations the
dispatcher receives. Each constructor is one directive followed by the rest
of the stream; `drawDisplayListD` carries the nested picture's own stream.
Directives that touch neither the paint, the initial matrix, the save stack
nor the draw log (clips, anti-alias flag, text, …) are omitted. -/
inductive DL where
  | nil
  | saveD (rest : DL)
  | restoreD (rest : DL)
  | saveLayerD (withAttributes : Bool) (bounds : Option Rect)
      (backdrop : DlImageFilter) (rest : DL)
  | translateD (tx ty : Scalar) (rest : DL)
  | transformFullD (m : Mat) (rest : DL)
  | transformResetD (rest : DL)
  | setColorD (c : Color) (rest : DL)
  | setDrawStyleD (style : DlDrawStyle) (rest : DL)
  | setBlendModeD (mode : DlBlendMode) (rest : DL)
  | setInvertColorsD (invert : Bool) (rest : DL)
  | setDitherD (dither : Bool) (rest : DL)
  | setStrokeWidthD (width : Scalar) (rest : DL)
  | setColorSourceD (source : Option DlColorSource) (rest : DL)
  | setColorFilterD (filterV : Option DlColorFilter) (rest : DL)
  | setImageFilterD (filterV : DlImageFilter) (rest : DL)
  | setMaskFilterD (filterV : Option DlMaskFilter) (rest : DL)
  | drawRectD (rect : Rect) (rest : DL)
  | drawPathD (path : SkPath) (rest : DL)
  | drawImageD (img : Option DlImage) (point : Point) (sampling : DlImageSampling)
      (renderWithAttributes : Bool) (rest : DL)
  | drawImageRectD (img : DlImage) (src dst : Rect) (sampling : DlImageSampling)
      (renderWithAttributes : Bool) (rest : DL)
  | drawShadowD (path : SkPath) (c : Color) (elevation : Scalar)
      (transparentOccluder : Bool) (dpr : Scalar) (rest : DL)
  | drawDisplayListD (nested : DL) (opacity : Scalar) (rest : DL)

/-- The dispatcher's state: the mutable paint, the initial matrix baseline,
and the external canvas. -/
structure DispState where
  paint : Paint
  initialMatrix : Mat
  canvas : CanvasState

/-- A freshly constructed dispatcher over a fresh canvas. -/
def DispState.initial : DispState := ⟨{}, 1, ⟨1, [], []⟩⟩

/-- The save paint of the opacity layer in `drawDisplayList`: solid black
carrying the opacity as alpha. -/
def savePaintForOpacity (opacity : Scalar) : Paint :=
  { color := ⟨0, 0, 0, opacity⟩ }

/-- Steps 2-4 of `drawDisplayList`: push one save scope, rebase the initial
matrix to the canvas's current transform, reset the paint to defaults, and
push the opacity save-layer when `opacity < 1`. -/
def ddlEnter (s : DispState) (opacity : Scalar) : DispState :=
  let canvas1 := s.canvas.save
  let canvas2 :=
    if opacity < 1 then canvas1.saveLayer (savePaintForOpacity opacity) none none
    else canvas1
  ⟨{}, canvas1.xformation, canvas2⟩

/-- Member function `drawImageRect` (shared by the `drawImage` and
`drawImageRect` directives): wraps the image's texture — without checking
it — and forwards the call to the canvas; the source-rect constraint is not
forwarded. -/
def drawImageRectFn (canvas : CanvasState) (image : DlImage) (src dst : Rect)
    (sampling : DlImageSampling) (renderWithAttributes : Bool) (paint : Paint) :
    CanvasState :=
  canvas.draw (.drawImageRect image.texture src dst
    (if renderWithAttributes then paint else {}) (toSamplerDescriptor sampling))

/-- The shape fast-path chain shared verbatim by `drawPath` and `drawShadow`:
axis-aligned rect, then simple rounded rect, then circle (oval with equal
width and height), then the general path. -/
def shapeFastCall (path : SkPath) (paint : Paint) : DrawCall :=
  match path.asRect with
  | some rect => .drawRect rect paint
  | none =>
      match path.asRRect with
      | some rrect =>
          if rrect.isSimple then .drawRRect rrect.rect rrect.simpleRadiusX paint
          else
            match path.asOval with
            | some oval =>
                if oval.width = oval.height then
                  .drawCircle oval.center (oval.width * 0.5) paint
                else .drawPathCall path paint
            | none => .drawPathCall path paint
      | none =>
          match path.asOval with
          | some oval =>
              if oval.width = oval.height then
                .drawCircle oval.center (oval.width * 0.5) paint
              else .drawPathCall path paint
          | none => .drawPathCall path paint

/-- The dispatcher: replays a directive stream, mirroring the corresponding
`DlDispatcher` member functions. -/
def dispatch (s : DispState) : DL → DispState
  | .nil => s
  | .saveD rest => dispatch { s with canvas := s.canvas.save } rest
  | .restoreD rest => dispatch { s with canvas := s.canvas.restore } rest
  | .saveLayerD withAttributes bounds backdrop rest =>
      dispatch { s with canvas :=
        (s.canvas.saveLayer (if withAttributes then s.paint else {}) bounds
          (toImageFilterProc backdrop)) } rest
  | .translateD tx ty rest =>
      dispatch { s with canvas := s.canvas.translateOp tx ty } rest
  | .transformFullD m rest =>
      dispatch { s with canvas := s.canvas.transformOp m } rest
  | .transformResetD rest =>
      dispatch { s with canvas := (s.canvas.resetTransform).transformOp s.initialMatrix } rest
  | .setColorD c rest => dispatch { s with paint := setColorFn s.paint c } rest
  | .setDrawStyleD style rest =>
      dispatch { s with paint := { s.paint with style := toStyle style } } rest
  | .setBlendModeD mode rest =>
      dispatch { s with paint := { s.paint with blendMode := toBlendMode mode } } rest
  | .setInvertColorsD invert rest =>
      dispatch { s with paint := { s.paint with invertColors := invert } } rest
  | .setDitherD dither rest =>
      dispatch { s with paint := { s.paint with dither := dither } } rest
  | .setStrokeWidthD width rest =>
      dispatch { s with paint := { s.paint with strokeWidth := width } } rest
  | .setColorSourceD source rest =>
      dispatch { s with paint := setColorSourceFn s.paint source } rest
  | .setColorFilterD filterV rest =>
      dispatch { s with paint := setColorFilterFn s.paint filterV } rest
  | .setImageFilterD filterV rest =>
      dispatch { s with paint := setImageFilterFn s.paint filterV } rest
  | .setMaskFilterD filterV rest =>
      dispatch { s with paint := setMaskFilterFn s.paint filterV } rest
  | .drawRectD rect rest =>
      dispatch { s with canvas := s.canvas.draw (.drawRect rect s.paint) } rest
  | .drawPathD path rest =>
      dispatch { s with canvas := s.canvas.draw (shapeFastCall path s.paint) } rest
  | .drawImageD img point sampling renderWithAttributes rest =>
      match img with
      | none => dispatch s rest
      | some image =>
          match image.texture with
          | none => dispatch s rest
          | some texture =>
              let src : Rect := ⟨0, 0, texture.width, texture.height⟩
              let dest : Rect :=
                ⟨point.1, point.2, point.1 + texture.width, point.2 + texture.height⟩
              dispatch { s with canvas :=
                (drawImageRectFn s.canvas image src dest sampling renderWithAttributes
                  s.paint) } rest
  | .drawImageRectD image src dst sampling renderWithAttributes rest =>
      dispatch { s with canvas :=
        (drawImageRectFn s.canvas image src dst sampling renderWithAttributes
          s.paint) } rest
  | .drawShadowD path c elevation _transparentOccluder dpr rest =>
      let occluderZ := dpr * elevation
      let paint := shadowPaintFor c elevation dpr s.canvas.xformation
      let canvas1 := s.canvas.save
      let canvas2 := canvas1.preConcat
        (makeTranslation 0 (-occluderZ * lightPosition.2.1))
      let canvas3 := canvas2.draw (shapeFastCall path paint)
      dispatch { s with canvas := canvas3.restore } rest
  | .drawDisplayListD nested opacity rest =>
      dispatch
        { paint := s.paint,
          initialMatrix := s.initialMatrix,
          canvas := ((dispatch (ddlEnter s opacity) nested).canvas.restoreToCount
            s.canvas.saveCount) }
        rest

/-- Specification-side predicate for claim C1: a directive stream in which no
prefix contains more restores than saves (at every nesting level), as holds
for every stream produced by the display-list recorder. `d` counts the
currently unmatched saves. -/
def balancedFrom (d : Nat) : DL → Bool
  | .nil => true
  | .saveD rest => balancedFrom (d + 1) rest
  | .saveLayerD _ _ _ rest => balancedFrom (d + 1) rest
  | .restoreD rest => decide (0 < d) && balancedFrom (d - 1) rest
  | .drawDisplayListD nested _ rest => balancedFrom 0 nested && balancedFrom d rest
  | .translateD _ _ rest => balancedFrom d rest
  | .transformFullD _ rest => balancedFrom d rest
  | .transformResetD rest => balancedFrom d rest
  | .setColorD _ rest => balancedFrom d rest
  | .setDrawStyleD _ rest => balancedFrom d rest
  | .setBlendModeD _ rest => balancedFrom d rest
  | .setInvertColorsD _ rest => balancedFrom d rest
  | .setDitherD _ rest => balancedFrom d rest
  | .setStrokeWidthD _ rest => balancedFrom d rest
  | .setColorSourceD _ rest => balancedFrom d rest
  | .setColorFilterD _ rest => balancedFrom d rest
  | .setImageFilterD _ rest => balancedFrom d rest
  | .setMaskFilterD _ rest => balancedFrom d rest
  | .drawRectD _ rest => balancedFrom d rest
  | .drawPathD _ rest => balancedFrom d rest
  | .drawImageD _ _ _ _ rest => balancedFrom d rest
  | .drawImageRectD _ _ _ _ _ rest => balancedFrom d rest
  | .drawShadowD _ _ _ _ _ rest => balancedFrom d rest

/-! ### Concrete inputs used by witnesses and counterexamples -/

/-- A dispatcher state whose canvas holds one caller save (depth 2). -/
def unbalancedCallerState : DispState := ⟨{}, 1, ⟨1, [1], []⟩⟩

/-- A balanced nested stream: one save, one attribute change, one restore. -/
def balancedNestedStream : DL := .saveD (.setColorD ⟨0, 0, 1, 1⟩ (.restoreD .nil))

/-- A dispatcher state with a non-identity initial matrix. -/
def translatedBaselineState : DispState := ⟨{}, makeTranslation 0 5, ⟨1, [], []⟩⟩

/-- A runtime-effect sampler list containing a null entry. -/
def nullEntrySamplers : List (Option SamplerEntry) :=
  [some (.image ⟨some ⟨2, 2⟩⟩ .linear), none]

/-- A path recognized as an axis-aligned rect. -/
def wRectPath : SkPath := ⟨some ⟨0, 0, 2, 3⟩, none, none, 0⟩

/-- A path recognized as nothing (general path fallback). -/
def wGenPath : SkPath := ⟨none, none, none, 7⟩

/-- Gradient colors used by the stop-conversion witness. -/
def wStopColors : List Color := [⟨1, 0, 0, 1⟩, ⟨0, 0, 1, 1⟩]

/-- Gradient stops used by the stop-conversion witness (neither 0 nor 1). -/
def wStops : List Scalar := [1/4, 3/4]

/-! ## Theorems -/

/-- C4: for all (radiusX, radiusY) with either radius negative, building a
Dilate or Erode image filter yields an absent filter procedure (a defined
no-op, not an error). -/
theorem negative_morphology_radius_absent (radiusX radiusY : Scalar)
    (h : radiusX < 0 ∨ radiusY < 0) :
    toImageFilterProc (.dilate radiusX radiusY) = none ∧
    toImageFilterProc (.erode radiusX radiusY) = none := by
  constructor <;> · rw [toImageFilterProc, if_pos h]

theorem negative_morphology_radius_absent_w :
    ((-1 : Scalar) < 0 ∨ (2 : Scalar) < 0) ∧
    toImageFilterProc (.dilate (-1) 2) = none ∧
    toImageFilterProc (.erode (-1) 2) = none :=
  ⟨Or.inl (by norm_num),
   (negative_morphology_radius_absent (-1) 2 (Or.inl (by norm_num))).1,
   (negative_morphology_radius_absent (-1) 2 (Or.inl (by norm_num))).2⟩

/-- C3: the Compose image-filter builder degenerates to the other side when
one side builds to no procedure (including when both are absent); otherwise
it returns a procedure that evaluates the inner procedure on the input,
wraps the inner result as the input of the outer procedure, and returns the
outer result. -/
theorem compose_filter_identity (outer inner : DlImageFilter) :
    (toImageFilterProc outer = none →
      toImageFilterProc (.compose outer inner) = toImageFilterProc inner) ∧
    (toImageFilterProc inner = none →
      toImageFilterProc (.compose outer inner) = toImageFilterProc outer) ∧
    (∀ outerProc innerProc, toImageFilterProc outer = some outerProc →
      toImageFilterProc inner = some innerProc →
      toImageFilterProc (.compose outer inner) =
        some (fun input effectTransform isSubpass =>
          outerProc (.make (innerProc input effectTransform isSubpass))
            effectTransform isSubpass)) := by
  refine ⟨fun ho => ?_, fun hi => ?_, fun outerProc innerProc ho hi => ?_⟩
  · cases hi : toImageFilterProc inner <;>
      rw [toImageFilterProc.eq_def] <;> simp [ho, hi]
  · cases ho : toImageFilterProc outer <;>
      rw [toImageFilterProc.eq_def] <;> simp [ho, hi]
  · rw [toImageFilterProc.eq_def]; simp [ho, hi]

theorem compose_filter_identity_w :
    toImageFilterProc DlImageFilter.null = none ∧
    toImageFilterProc (.compose .null (.blur 1 2 .clamp)) =
      toImageFilterProc (.blur 1 2 .clamp) ∧
    toImageFilterProc (.compose (.blur 1 2 .clamp) .null) =
      toImageFilterProc (.blur 1 2 .clamp) :=
  ⟨rfl, (compose_filter_identity .null (.blur 1 2 .clamp)).1 rfl,
   (compose_filter_identity (.blur 1 2 .clamp) .null).2.1 rfl⟩

/-- C5: converting any (non-null) color filter into an image-filter
procedure wraps the input with the opacity-absorption flag forced to false,
unlike the direct paint-attribute use, whose modelled default is true. -/
theorem colorFilter_image_filter_absorbs_no_opacity (cf : DlColorFilter) :
    toImageFilterProc (.colorFilterF (some cf)) =
      some (fun input _effectTransform _isSubpass =>
        .colorFilterWrap (toColorFilterSome cf) input false) ∧
    paintAttributeAbsorbOpacity = true :=
  ⟨rfl, rfl⟩

theorem colorFilter_image_filter_absorbs_no_opacity_w :
    toImageFilterProc (.colorFilterF (some .srgbToLinearGamma)) =
      some (fun input _effectTransform _isSubpass =>
        .colorFilterWrap (toColorFilterSome .srgbToLinearGamma) input false) :=
  (colorFilter_image_filter_absorbs_no_opacity .srgbToLinearGamma).1

/-- C6 (code bug): `occluderZ = dpr * elevation` and the shadow paint's
mask-blur parameter is `kLightRadius * occluderZ / verticalScale`, with zero
blur and a zero translate offset at elevation 0 — but the light radius
constant is 1, not 800/600 = 4/3: the C++ initializer `800 / 600` is integer
division, contradicting the intended ratio named by its comment. At
elevation 3, dpr 2, vertical scale 1 the code's blur parameter is 6 where
the claimed constant would give 8. -/
theorem shadow_light_radius_integer_division :
    kLightRadius = 1 ∧
    kLightRadius ≠ (800 : ℚ) / 600 ∧
    (∀ (current : Mat) (c : Color) (elevation dpr : Scalar),
      (shadowPaintFor c elevation dpr current).maskBlurDescriptor =
        some ⟨.normal, kLightRadius * (dpr * elevation) / verticalScale current⟩) ∧
    (∀ (current : Mat) (c : Color) (dpr : Scalar),
      (shadowPaintFor c 0 dpr current).maskBlurDescriptor = some ⟨.normal, 0⟩) ∧
    (∀ dpr : Scalar, makeTranslation 0 (-(dpr * 0) * lightPosition.2.1) = 1) ∧
    kLightRadius * ((2 : ℚ) * 3) / verticalScale (1 : Mat) = 6 ∧
    (800 : ℚ) / 600 * ((2 : ℚ) * 3) / verticalScale (1 : Mat) = 8 := by
  have h1 : kLightRadius = 1 := by norm_num [kLightRadius]
  have hv : verticalScale (1 : Mat) = 1 := Matrix.one_apply_eq 1
  refine ⟨h1, by rw [h1]; norm_num, fun current c elevation dpr => rfl,
    fun current c dpr => ?_, fun dpr => ?_, ?_, ?_⟩
  · simp [shadowPaintFor]
  · have h : -(dpr * 0) * lightPosition.2.1 = 0 := by simp [lightPosition]
    rw [h]; decide
  · rw [h1, hv]; norm_num
  · rw [hv]; norm_num

theorem shadow_light_radius_integer_division_w : kLightRadius = 1 :=
  shadow_light_radius_integer_division.1

/-- The sampler loop fails as soon as the list contains a null entry or a
non-image entry, wherever it occurs. -/
theorem collectTextureInputs_eq_none {samplers : List (Option SamplerEntry)}
    (h : none ∈ samplers ∨ some SamplerEntry.nonImage ∈ samplers) :
    collectTextureInputs samplers = none := by
  induction samplers with
  | nil => rcases h with h | h <;> simp at h
  | cons head tail ih =>
      match head with
      | none => rfl
      | some .nonImage => rfl
      | some (.image img sampling) =>
          have h' : none ∈ tail ∨ some SamplerEntry.nonImage ∈ tail := by
            rcases h with h | h <;> simp at h <;> [exact Or.inl h; exact Or.inr h]
          rw [collectTextureInputs, ih h']

/-- C7: a runtime-effect color source whose sampler list contains a null
entry or a non-image sampler abandons the entire attribute assignment: the
paint (in particular its color source) is left unchanged. -/
theorem runtime_effect_bad_sampler_unchanged (p : Paint)
    (runtimeStage uniformData : Nat) (samplers : List (Option SamplerEntry))
    (h : none ∈ samplers ∨ some SamplerEntry.nonImage ∈ samplers) :
    setColorSourceFn p (some (.runtimeEffect runtimeStage uniformData samplers)) = p := by
  rw [setColorSourceFn, collectTextureInputs_eq_none h]

theorem runtime_effect_bad_sampler_unchanged_w :
    (none ∈ nullEntrySamplers ∨ some SamplerEntry.nonImage ∈ nullEntrySamplers) ∧
    setColorSourceFn {} (some (.runtimeEffect 0 0 nullEntrySamplers)) = {} :=
  ⟨by decide,
   runtime_effect_bad_sampler_unchanged {} 0 0 nullEntrySamplers (by decide)⟩

/-- C8 (amended): the `drawImage` directive is a no-op when the image
reference is null or the image has no backing texture; the `drawImageRect`
directive, by contrast, forwards the call to the canvas unconditionally,
wrapping whatever texture reference the image holds. -/
theorem drawImage_missing_texture_noop (s : DispState) (point : Point)
    (sampling : DlImageSampling) (renderWithAttributes : Bool) (img : DlImage)
    (h : img.texture = none) :
    dispatch s (.drawImageD none point sampling renderWithAttributes .nil) = s ∧
    dispatch s (.drawImageD (some img) point sampling renderWithAttributes .nil) = s ∧
    (∀ src dst,
      (dispatch s
        (.drawImageRectD img src dst sampling renderWithAttributes .nil)).canvas.calls =
        .drawImageRect img.texture src dst
          (if renderWithAttributes then s.paint else {})
          (toSamplerDescriptor sampling) :: s.canvas.calls) := by
  rcases img with ⟨tex⟩
  cases tex with
  | none => exact ⟨rfl, rfl, fun src dst => rfl⟩
  | some t => simp at h

theorem drawImage_missing_texture_noop_w :
    (⟨none⟩ : DlImage).texture = none ∧
    dispatch DispState.initial (.drawImageD (some ⟨none⟩) (0, 0) .linear true .nil) =
      DispState.initial :=
  ⟨rfl,
   (drawImage_missing_texture_noop DispState.initial (0, 0) .linear true ⟨none⟩ rfl).2.1⟩

/-- C8 counterexample: a `drawImageRect` directive whose image has no backing
texture is not a no-op — a draw-image call is issued to the canvas. -/
theorem drawImageRect_missing_texture_draws :
    (dispatch DispState.initial
      (.drawImageRectD ⟨none⟩ ⟨0, 0, 1, 1⟩ ⟨0, 0, 1, 1⟩ .linear true
        .nil)).canvas.calls.length = 1 ∧
    DispState.initial.canvas.calls.length = 0 :=
  ⟨rfl, rfl⟩

/-- C9: for both the generic path directive and the shadow directive, shape
recognition is attempted in the priority order axis-aligned rect, then
simple rounded rect, then circle (oval with equal width and height), falling
back to general path rendering only when none matches, and the recognized
shape is drawn with the corresponding cheaper primitive (the shadow directive
with its transient shadow paint). -/
theorem shape_fast_path_priority (s : DispState) (path : SkPath) (c : Color)
    (elevation dpr : Scalar) (transparentOccluder : Bool) :
    (∀ rect, path.asRect = some rect →
      (dispatch s (.drawPathD path .nil)).canvas.calls =
        .drawRect rect s.paint :: s.canvas.calls) ∧
    (∀ rrect, path.asRect = none → path.asRRect = some rrect → rrect.isSimple = true →
      (dispatch s (.drawPathD path .nil)).canvas.calls =
        .drawRRect rrect.rect rrect.simpleRadiusX s.paint :: s.canvas.calls) ∧
    (∀ oval, path.asRect = none →
      (∀ rrect, path.asRRect = some rrect → rrect.isSimple = false) →
      path.asOval = some oval → oval.width = oval.height →
      (dispatch s (.drawPathD path .nil)).canvas.calls =
        .drawCircle oval.center (oval.width * 0.5) s.paint :: s.canvas.calls) ∧
    (path.asRect = none →
      (∀ rrect, path.asRRect = some rrect → rrect.isSimple = false) →
      (∀ oval, path.asOval = some oval → oval.width ≠ oval.height) →
      (dispatch s (.drawPathD path .nil)).canvas.calls =
        .drawPathCall path s.paint :: s.canvas.calls) ∧
    (∀ rect, path.asRect = some rect →
      (dispatch s
        (.drawShadowD path c elevation transparentOccluder dpr .nil)).canvas.calls =
        .drawRect rect (shadowPaintFor c elevation dpr s.canvas.xformation) ::
          s.canvas.calls) ∧
    (∀ rrect, path.asRect = none → path.asRRect = some rrect → rrect.isSimple = true →
      (dispatch s
        (.drawShadowD path c elevation transparentOccluder dpr .nil)).canvas.calls =
        .drawRRect rrect.rect rrect.simpleRadiusX
          (shadowPaintFor c elevation dpr s.canvas.xformation) :: s.canvas.calls) ∧
    (∀ oval, path.asRect = none →
      (∀ rrect, path.asRRect = some rrect → rrect.isSimple = false) →
      path.asOval = some oval → oval.width = oval.height →
      (dispatch s
        (.drawShadowD path c elevation transparentOccluder dpr .nil)).canvas.calls =
        .drawCircle oval.center (oval.width * 0.5)
          (shadowPaintFor c elevation dpr s.canvas.xformation) :: s.canvas.calls) ∧
    (path.asRect = none →
      (∀ rrect, path.asRRect = some rrect → rrect.isSimple = false) →
      (∀ oval, path.asOval = some oval → oval.width ≠ oval.height) →
      (dispatch s
        (.drawShadowD path c elevation transparentOccluder dpr .nil)).canvas.calls =
        .drawPathCall path (shadowPaintFor c elevation dpr s.canvas.xformation) ::
          s.canvas.calls) := by
  have hcall : ∀ paint,
      (∀ rect, path.asRect = some rect → shapeFastCall path paint = .drawRect rect paint) ∧
      (∀ rrect, path.asRect = none → path.asRRect = some rrect → rrect.isSimple = true →
        shapeFastCall path paint = .drawRRect rrect.rect rrect.simpleRadiusX paint) ∧
      (∀ oval, path.asRect = none →
        (∀ rrect, path.asRRect = some rrect → rrect.isSimple = false) →
        path.asOval = some oval → oval.width = oval.height →
        shapeFastCall path paint = .drawCircle oval.center (oval.width * 0.5) paint) ∧
      (path.asRect = none →
        (∀ rrect, path.asRRect = some rrect → rrect.isSimple = false) →
        (∀ oval, path.asOval = some oval → oval.width ≠ oval.height) →
        shapeFastCall path paint = .drawPathCall path paint) := by
    intro paint
    refine ⟨fun rect hr => by simp [shapeFastCall, hr],
      fun rrect hr hrr hs => by simp [shapeFastCall, hr, hrr, hs],
      fun oval hr hrr ho hwh => ?_, fun hr hrr ho => ?_⟩
    · cases hx : path.asRRect with
      | none => simp [shapeFastCall, hr, hx, ho, hwh]
      | some rr => simp [shapeFastCall, hr, hx, hrr rr hx, ho, hwh]
    · cases hx : path.asRRect with
      | none =>
          cases hy : path.asOval with
          | none => simp [shapeFastCall, hr, hx, hy]
          | some oval => simp [shapeFastCall, hr, hx, hy, ho oval hy]
      | some rr =>
          cases hy : path.asOval with
          | none => simp [shapeFastCall, hr, hx, hrr rr hx, hy]
          | some oval => simp [shapeFastCall, hr, hx, hrr rr hx, hy, ho oval hy]
  have hpath : (dispatch s (.drawPathD path .nil)).canvas.calls =
      shapeFastCall path s.paint :: s.canvas.calls := rfl
  have hshadow : (dispatch s
      (.drawShadowD path c elevation transparentOccluder dpr .nil)).canvas.calls =
      shapeFastCall path (shadowPaintFor c elevation dpr s.canvas.xformation) ::
        s.canvas.calls := rfl
  refine ⟨fun rect hr => ?_, fun rrect hr hrr hs => ?_, fun oval hr hrr ho hwh => ?_,
    fun hr hrr ho => ?_, fun rect hr => ?_, fun rrect hr hrr hs => ?_,
    fun oval hr hrr ho hwh => ?_, fun hr hrr ho => ?_⟩
  · rw [hpath, (hcall s.paint).1 rect hr]
  · rw [hpath, (hcall s.paint).2.1 rrect hr hrr hs]
  · rw [hpath, (hcall s.paint).2.2.1 oval hr hrr ho hwh]
  · rw [hpath, (hcall s.paint).2.2.2 hr hrr ho]
  · rw [hshadow, (hcall _).1 rect hr]
  · rw [hshadow, (hcall _).2.1 rrect hr hrr hs]
  · rw [hshadow, (hcall _).2.2.1 oval hr hrr ho hwh]
  · rw [hshadow, (hcall _).2.2.2 hr hrr ho]

theorem shape_fast_path_priority_w :
    wRectPath.asRect = some ⟨0, 0, 2, 3⟩ ∧
    (dispatch DispState.initial (.drawPathD wRectPath .nil)).canvas.calls =
      .drawRect ⟨0, 0, 2, 3⟩ DispState.initial.paint ::
        DispState.initial.canvas.calls ∧
    (dispatch DispState.initial (.drawPathD wGenPath .nil)).canvas.calls =
      .drawPathCall wGenPath DispState.initial.paint ::
        DispState.initial.canvas.calls :=
  ⟨rfl,
   (shape_fast_path_priority DispState.initial wRectPath ⟨0, 0, 0, 1⟩ 0 0
     false).1 ⟨0, 0, 2, 3⟩ rfl,
   (shape_fast_path_priority DispState.initial wGenPath ⟨0, 0, 0, 1⟩ 0 0
     false).2.2.2.1 rfl (fun rrect h => by simp [wGenPath] at h)
     (fun oval h => by simp [wGenPath] at h)⟩

/-- C10: the transform-reset directive does not set the canvas transform to
the identity: it resets the canvas transform and re-applies the dispatcher's
current initial matrix, so afterwards the canvas transform equals the
initial-matrix baseline — which, on entering a nested `drawDisplayList`
replay, is the accumulated transform captured at the start of that replay. -/
theorem transformReset_applies_initial_matrix (s : DispState) (opacity : Scalar) :
    (dispatch s (.transformResetD .nil)).canvas.xformation = s.initialMatrix ∧
    (ddlEnter s opacity).initialMatrix = s.canvas.xformation ∧
    (s.initialMatrix ≠ 1 →
      (dispatch s (.transformResetD .nil)).canvas.xformation ≠ 1) := by
  have key : (dispatch s (.transformResetD .nil)).canvas.xformation = s.initialMatrix := by
    show (1 : Mat) * s.initialMatrix = s.initialMatrix
    exact one_mul _
  exact ⟨key, rfl, fun h => by rw [key]; exact h⟩

theorem transformReset_applies_initial_matrix_w :
    translatedBaselineState.initialMatrix ≠ 1 ∧
    (dispatch translatedBaselineState (.transformResetD .nil)).canvas.xformation ≠ 1 :=
  ⟨by decide,
   (transformReset_applies_initial_matrix translatedBaselineState 1).2.2 (by decide)⟩

/-- The canvas save count is at least 1 (the base entry). -/
theorem CanvasState.saveCount_pos (c : CanvasState) : 1 ≤ c.saveCount :=
  Nat.succ_le_succ (Nat.zero_le _)

@[simp]
theorem saveCount_save (c : CanvasState) : c.save.saveCount = c.saveCount + 1 := rfl

@[simp]
theorem saveCount_saveLayer (c : CanvasState) (p : Paint) (bounds : Option Rect)
    (backdropFilter : Option FilterProc) :
    (c.saveLayer p bounds backdropFilter).saveCount = c.saveCount + 1 := rfl

theorem saveCount_restore_le (c : CanvasState) : c.saveCount ≤ c.restore.saveCount + 1 := by
  rcases c with ⟨x, _ | ⟨m, rest⟩, calls⟩ <;>
    simp [CanvasState.restore, CanvasState.saveCount]

/-- Lemma: `restorePop` reaches exactly the requested count when the count is
between 1 and the current save count. -/
theorem restorePop_saveCount (n : Nat) (hn : 1 ≤ n) :
    ∀ (saved : List Mat) (xformation : Mat) (calls : List DrawCall),
      n ≤ saved.length + 1 → (restorePop n xformation calls saved).saveCount = n := by
  intro saved
  induction saved with
  | nil =>
      intro x cs hle
      have hone : n = 1 := le_antisymm (by simpa using hle) hn
      simp [restorePop, CanvasState.saveCount, hone]
  | cons m rest ih =>
      intro x cs hle
      by_cases hgt : rest.length + 2 > n
      · rw [restorePop, if_pos hgt]
        exact ih m cs (by omega)
      · rw [restorePop, if_neg hgt]
        simp only [CanvasState.saveCount, List.length_cons]
        simp only [List.length_cons] at hle
        omega

theorem restoreToCount_saveCount (c : CanvasState) (n : Nat) (hn : 1 ≤ n)
    (hle : n ≤ c.saveCount) : (c.restoreToCount n).saveCount = n :=
  restorePop_saveCount n hn c.saved c.xformation c.calls hle

/-- Entering a nested display list pushes at least one save scope. -/
theorem ddlEnter_saveCount (s : DispState) (opacity : Scalar) :
    s.canvas.saveCount + 1 ≤ (ddlEnter s opacity).canvas.saveCount := by
  rw [ddlEnter]
  by_cases h : opacity < 1 <;> simp [h]

/-- Dispatching a stream whose every prefix has at most `d` unmatched
restores cannot lower the canvas save count by more than `d`. -/
theorem balanced_dispatch_saveCount :
    ∀ (l : DL) (d : Nat) (s : DispState), balancedFrom d l = true →
      s.canvas.saveCount ≤ (dispatch s l).canvas.saveCount + d := by
  intro l
  induction l with
  | nil => intro d s _; exact Nat.le_add_right _ _
  | saveD rest ih =>
      intro d s h
      have hr := ih (d + 1) { s with canvas := s.canvas.save } h
      rw [saveCount_save] at hr
      show s.canvas.saveCount ≤
        (dispatch { s with canvas := s.canvas.save } rest).canvas.saveCount + d
      omega
  | saveLayerD withAttributes bounds backdrop rest ih =>
      intro d s h
      have hr := ih (d + 1)
        { s with canvas := (s.canvas.saveLayer (if withAttributes then s.paint else {})
            bounds (toImageFilterProc backdrop)) } h
      rw [saveCount_saveLayer] at hr
      show s.canvas.saveCount ≤
        (dispatch { s with canvas := (s.canvas.saveLayer
          (if withAttributes then s.paint else {}) bounds
          (toImageFilterProc backdrop)) } rest).canvas.saveCount + d
      omega
  | restoreD rest ih =>
      intro d s h
      have h' : (decide (0 < d) && balancedFrom (d - 1) rest) = true := h
      simp only [Bool.and_eq_true, decide_eq_true_eq] at h'
      obtain ⟨hd, hb⟩ := h'
      have hr := ih (d - 1) { s with canvas := s.canvas.restore } hb
      have hc := saveCount_restore_le s.canvas
      show s.canvas.saveCount ≤
        (dispatch { s with canvas := s.canvas.restore } rest).canvas.saveCount + d
      simp only at hr
      omega
  | translateD tx ty rest ih =>
      intro d s h
      exact ih d { s with canvas := s.canvas.translateOp tx ty } h
  | transformFullD m rest ih =>
      intro d s h
      exact ih d { s with canvas := s.canvas.transformOp m } h
  | transformResetD rest ih =>
      intro d s h
      exact ih d { s with canvas := (s.canvas.resetTransform).transformOp s.initialMatrix } h
  | setColorD c rest ih =>
      intro d s h
      exact ih d { s with paint := setColorFn s.paint c } h
  | setDrawStyleD style rest ih =>
      intro d s h
      exact ih d { s with paint := { s.paint with style := toStyle style } } h
  | setBlendModeD mode rest ih =>
      intro d s h
      exact ih d { s with paint := { s.paint with blendMode := toBlendMode mode } } h
  | setInvertColorsD invert rest ih =>
      intro d s h
      exact ih d { s with paint := { s.paint with invertColors := invert } } h
  | setDitherD dither rest ih =>
      intro d s h
      exact ih d { s with paint := { s.paint with dither := dither } } h
  | setStrokeWidthD width rest ih =>
      intro d s h
      exact ih d { s with paint := { s.paint with strokeWidth := width } } h
  | setColorSourceD source rest ih =>
      intro d s h
      exact ih d { s with paint := setColorSourceFn s.paint source } h
  | setColorFilterD filterV rest ih =>
      intro d s h
      exact ih d { s with paint := setColorFilterFn s.paint filterV } h
  | setImageFilterD filterV rest ih =>
      intro d s h
      exact ih d { s with paint := setImageFilterFn s.paint filterV } h
  | setMaskFilterD filterV rest ih =>
      intro d s h
      exact ih d { s with paint := setMaskFilterFn s.paint filterV } h
  | drawRectD rect rest ih =>
      intro d s h
      exact ih d { s with canvas := s.canvas.draw (.drawRect rect s.paint) } h
  | drawPathD path rest ih =>
      intro d s h
      exact ih d { s with canvas := s.canvas.draw (shapeFastCall path s.paint) } h
  | drawImageD img point sampling renderWithAttributes rest ih =>
      intro d s h
      match img with
      | none => exact ih d s h
      | some image =>
          rcases image with ⟨tex⟩
          cases tex with
          | none => exact ih d s h
          | some t =>
              exact ih d { s with canvas :=
                (drawImageRectFn s.canvas ⟨some t⟩ ⟨0, 0, t.width, t.height⟩
                  ⟨point.1, point.2, point.1 + t.width, point.2 + t.height⟩
                  sampling renderWithAttributes s.paint) } h
  | drawImageRectD image src dst sampling renderWithAttributes rest ih =>
      intro d s h
      exact ih d { s with canvas :=
        (drawImageRectFn s.canvas image src dst sampling renderWithAttributes
          s.paint) } h
  | drawShadowD path c elevation transparentOccluder dpr rest ih =>
      intro d s h
      exact ih d { s with canvas :=
        ((((s.canvas.save).preConcat
          (makeTranslation 0 (-(dpr * elevation) * lightPosition.2.1))).draw
          (shapeFastCall path
            (shadowPaintFor c elevation dpr s.canvas.xformation))).restore) } h
  | drawDisplayListD nested opacity rest ihNested ihRest =>
      intro d s h
      have h' : (balancedFrom 0 nested && balancedFrom d rest) = true := h
      simp only [Bool.and_eq_true] at h'
      obtain ⟨hn, hr⟩ := h'
      have h1 := ddlEnter_saveCount s opacity
      have h2 := ihNested 0 (ddlEnter s opacity) hn
      have h3 : ((dispatch (ddlEnter s opacity) nested).canvas.restoreToCount
          s.canvas.saveCount).saveCount = s.canvas.saveCount :=
        restoreToCount_saveCount _ _ s.canvas.saveCount_pos (by omega)
      have h4 := ihRest d
        ⟨s.paint, s.initialMatrix,
          (dispatch (ddlEnter s opacity) nested).canvas.restoreToCount
            s.canvas.saveCount⟩ hr
      have h4' : ((dispatch (ddlEnter s opacity) nested).canvas.restoreToCount
          s.canvas.saveCount).saveCount ≤
          (dispatch ⟨s.paint, s.initialMatrix,
            (dispatch (ddlEnter s opacity) nested).canvas.restoreToCount
              s.canvas.saveCount⟩ rest).canvas.saveCount + d := h4
      show s.canvas.saveCount ≤
        (dispatch ⟨s.paint, s.initialMatrix,
          (dispatch (ddlEnter s opacity) nested).canvas.restoreToCount
            s.canvas.saveCount⟩ rest).canvas.saveCount + d
      omega

/-- C1 (amended): after `drawDisplayList` returns, the dispatcher's paint
and initial matrix equal their values from immediately before the call, for
every nested directive stream and opacity; the canvas save depth is also
restored — by restoring to the depth recorded before the call — for every
nested stream in which no prefix has more restores than saves (as holds for
all recorder-produced streams). -/
theorem drawDisplayList_restores_state (s : DispState) (nested : DL)
    (opacity : Scalar) :
    (dispatch s (.drawDisplayListD nested opacity .nil)).paint = s.paint ∧
    (dispatch s (.drawDisplayListD nested opacity .nil)).initialMatrix =
      s.initialMatrix ∧
    (balancedFrom 0 nested = true →
      (dispatch s (.drawDisplayListD nested opacity .nil)).canvas.saveCount =
        s.canvas.saveCount) := by
  refine ⟨rfl, rfl, fun hbal => ?_⟩
  have h1 := ddlEnter_saveCount s opacity
  have h2 := balanced_dispatch_saveCount nested 0 (ddlEnter s opacity) hbal
  show ((dispatch (ddlEnter s opacity) nested).canvas.restoreToCount
      s.canvas.saveCount).saveCount = s.canvas.saveCount
  exact restoreToCount_saveCount _ _ s.canvas.saveCount_pos (by omega)

theorem drawDisplayList_restores_state_w :
    balancedFrom 0 balancedNestedStream = true ∧
    (dispatch DispState.initial
      (.drawDisplayListD balancedNestedStream (1/2) .nil)).canvas.saveCount =
      DispState.initial.canvas.saveCount :=
  ⟨by decide,
   (drawDisplayList_restores_state DispState.initial balancedNestedStream
     (1/2)).2.2 (by decide)⟩

/-- C1 counterexample: a malformed nested stream of two bare restores,
replayed from a caller whose canvas already holds one save (depth 2),
leaves the canvas save depth at 1 after `drawDisplayList` returns — the
recorded-depth restoration only pops, so the caller's depth is not
restored for this stream, contradicting the claim's universal
quantification over nested directive streams. -/
theorem drawDisplayList_overrestore_depth_not_restored :
    (dispatch unbalancedCallerState
      (.drawDisplayListD (.restoreD (.restoreD .nil)) 1 .nil)).canvas.saveCount ≠
      unbalancedCallerState.canvas.saveCount := by decide

/-- Lemma: `getLastD` ignores the default on a nonempty list. -/
theorem getLastD_irrel {α : Type} (l : List α) (d₁ d₂ : α) (h : l ≠ []) :
    l.getLastD d₁ = l.getLastD d₂ := by
  cases l with
  | nil => exact absurd rfl h
  | cons a t => rw [List.getLastD_cons, List.getLastD_cons]

/-- Lemma: `getLastD` of an append with a nonempty right part ignores the left part
and the default. -/
theorem getLastD_append_right {α : Type} (l₁ l₂ : List α) (d : α) (h : l₂ ≠ []) :
    (l₁ ++ l₂).getLastD d = l₂.getLastD d := by
  induction l₁ generalizing d with
  | nil => rfl
  | cons a t ih => rw [List.cons_append, List.getLastD_cons, ih a, getLastD_irrel l₂ a d h]

/-- C2: the stop normalizer prepends a synthetic (first color, 0) entry
exactly when the first stop is not 0, copies all pairs through, and appends
a synthetic (last color, 1) entry exactly when the last stop is not 1; the
output always starts at 0 and ends at 1, is at least as long as the input,
equals the input when already normalized, and the same normalization is
applied for all four gradient kinds. -/
theorem convertStops_normalizes (colors : List Color) (stops : List Scalar)
    (hlen : 2 ≤ stops.length) (hcl : colors.length = stops.length)
    (hrange : ∀ x ∈ stops, 0 ≤ x ∧ x ≤ 1) (hmono : stops.Chain' (· ≤ ·)) :
    convertStops colors stops =
      ((if stops.head? = some 0 then [] else [colors.headD ⟨0, 0, 0, 0⟩]) ++ colors ++
        (if stops.getLast? = some 1 then [] else [colors.getLastD ⟨0, 0, 0, 0⟩]),
       (if stops.head? = some 0 then [] else [0]) ++ stops ++
        (if stops.getLast? = some 1 then [] else [1])) ∧
    (convertStops colors stops).2.head? = some 0 ∧
    (convertStops colors stops).2.getLast? = some 1 ∧
    stops.length ≤ (convertStops colors stops).2.length ∧
    colors.length ≤ (convertStops colors stops).1.length ∧
    (stops.head? = some 0 → stops.getLast? = some 1 →
      convertStops colors stops = (colors, stops)) ∧
    (∀ p startPoint endPoint tileMode m,
      (setColorSourceFn p
        (some (.linearGradient startPoint endPoint colors stops tileMode m))).colorSource =
        ColorSource.linearGradient startPoint endPoint (convertStops colors stops).1
          (convertStops colors stops).2 (toTileMode tileMode) (toMatrix m)) ∧
    (∀ p center radius tileMode m,
      (setColorSourceFn p
        (some (.radialGradient center radius colors stops tileMode m))).colorSource =
        ColorSource.radialGradient center radius (convertStops colors stops).1
          (convertStops colors stops).2 (toTileMode tileMode) (toMatrix m)) ∧
    (∀ p startCenter startRadius endCenter endRadius tileMode m,
      (setColorSourceFn p
        (some (.conicalGradient startCenter startRadius endCenter endRadius colors
          stops tileMode m))).colorSource =
        ColorSource.conicalGradient endCenter endRadius (convertStops colors stops).1
          (convertStops colors stops).2 startCenter startRadius (toTileMode tileMode)
          (toMatrix m)) ∧
    (∀ p center startAngle endAngle tileMode m,
      (setColorSourceFn p
        (some (.sweepGradient center startAngle endAngle colors stops tileMode
          m))).colorSource =
        ColorSource.sweepGradient center startAngle endAngle (convertStops colors stops).1
          (convertStops colors stops).2 (toTileMode tileMode) (toMatrix m)) := by
  have hc_ne : colors ≠ [] := by
    intro h
    rw [h] at hcl
    simp at hcl
    omega
  obtain ⟨a, t, rfl⟩ : ∃ a t, stops = a :: t := by
    cases stops with
    | nil => simp at hlen
    | cons a t => exact ⟨a, t, rfl⟩
  obtain ⟨v, hv⟩ : ∃ v, (a :: t).getLast? = some v :=
    ⟨(a :: t).getLast (by simp), List.getLast?_eq_getLast _ (by simp)⟩
  have hD : (a :: t).getLastD 0 = v := by
    rw [List.getLastD_eq_getLast?, hv]; rfl
  have hpop : ([(0 : ℚ)] ++ (a :: t)).getLastD 0 = v := by
    rw [getLastD_append_right [(0 : ℚ)] (a :: t) 0 (by simp), hD]
  have hcl2 : ∀ ch : Color, (ch :: colors).getLast? = colors.getLast? := by
    intro ch
    rw [← List.singleton_append, List.getLast?_append_of_ne_nil _ hc_ne]
  have hmain : convertStops colors (a :: t) =
      ((if (a :: t).head? = some 0 then [] else [colors.headD ⟨0, 0, 0, 0⟩]) ++
          colors ++
        (if (a :: t).getLast? = some 1 then [] else [colors.getLastD ⟨0, 0, 0, 0⟩]),
       (if (a :: t).head? = some 0 then [] else [0]) ++ (a :: t) ++
        (if (a :: t).getLast? = some 1 then [] else [1])) := by
    by_cases ha : a = 0 <;> by_cases hb : v = 1
    · subst ha; subst hb
      simp [convertStops, hD, hv]
    · subst ha
      simp [convertStops, hD, hv, hb]
    · subst hb
      simp [convertStops, hD, hpop, hv, ha]
    · simp [convertStops, hD, hpop, hv, ha, hb, hcl2, List.append_assoc]
  refine ⟨hmain, ?_, ?_, ?_, ?_, ?_,
    fun p startPoint endPoint tileMode m => rfl, fun p center radius tileMode m => rfl,
    fun p startCenter startRadius endCenter endRadius tileMode m => rfl,
    fun p center startAngle endAngle tileMode m => rfl⟩
  · simp only [hmain]
    by_cases ha : (a :: t).head? = some 0
    · rw [if_pos ha, List.nil_append, List.cons_append, List.head?_cons]
      simpa using ha
    · rw [if_neg ha]; rfl
  · simp only [hmain]
    by_cases hb : (a :: t).getLast? = some 1
    · rw [if_pos hb, List.append_nil,
        List.getLast?_append_of_ne_nil _ (List.cons_ne_nil a t)]
      exact hb
    · rw [if_neg hb, List.getLast?_concat]
  · rw [hmain]
    split_ifs <;> simp [List.length_append]
  · rw [hmain]
    split_ifs <;> (simp [List.length_append]; try omega)
  · intro h0 h1
    rw [hmain, if_pos h0, if_pos h0, if_pos h1, if_pos h1, List.nil_append,
      List.nil_append, List.append_nil, List.append_nil]

theorem convertStops_normalizes_w :
    2 ≤ wStops.length ∧ wStopColors.length = wStops.length ∧
    (∀ x ∈ wStops, 0 ≤ x ∧ x ≤ 1) ∧ wStops.Chain' (· ≤ ·) ∧
    (convertStops wStopColors wStops).2.head? = some 0 ∧
    (convertStops wStopColors wStops).2.getLast? = some 1 :=
  ⟨by decide, by decide,
   by norm_num [wStops, List.forall_mem_cons],
   by norm_num [wStops, List.chain'_cons, List.chain'_singleton],
   (convertStops_normalizes wStopColors wStops (by decide) (by decide)
     (by norm_num [wStops, List.forall_mem_cons])
     (by norm_num [wStops, List.chain'_cons, List.chain'_singleton])).2.1,
   (convertStops_normalizes wStopColors wStops (by decide) (by decide)
     (by norm_num [wStops, List.forall_mem_cons])
     (by norm_num [wStops, List.chain'_cons, List.chain'_singleton])).2.2.1⟩

end Impeller
